import Mathlib

/-!
Shallow embedding of the document-storage gateway of the lms-fullstack
repository: the two helper modules `src/lib/minio/mini-io-client.ts`
(direct-transfer variant) and `src/lib/minio/minio-client.ts`
(presigned-URL variant).

Modelling choices, in terms of the TypeScript source:
  * A JS `File` is its byte content (a list of bytes) together with its
    declared MIME type string (`file.type`, possibly empty in JS).
  * The environment variables `MINIO_URL` and `MINIO_BUCKET` form `Env`.
  * The third-party minio client and the global `fetch` are modelled as an
    abstract behaviour record `StoreClient σ`: each primitive the gateway
    calls is a state transformer over an abstract state `σ` that either
    returns a value and a next state or raises an error `Err`.  Theorems
    quantify over this record, so they hold for every behaviour of the
    external store, network included.
  * A JS rejection inside a gateway operation is `Except GatewayErr`;
    `GatewayErr.generic msg` is a freshly constructed `new Error(msg)`
    (it carries only the message string, by construction), while
    `GatewayErr.raw e` is the original error propagating uncaught.
  * The UUID generator `v4()` is modelled by passing the generated
    identifier `genId` as an input to `createDocument`: the generator is
    part of the environment, and freshness of its outputs is a hypothesis
    where a claim needs it.
  * For round-trip claims the external store is instantiated with a
    faithful key-value model `FStore` in which `putObject` stores exactly
    what it is given, `statObject` reports the stored byte length and
    content type, and presigned URLs resolve to their target keys.
-/

namespace LmsStorage

/-- A JS `File`: byte content plus the declared MIME type `file.type`. -/
structure JSFile where
  content : List Nat
  type : String
deriving Repr, DecidableEq

/-- The environment variables the two modules read: `MINIO_URL` and
`MINIO_BUCKET`. -/
structure Env where
  minioUrl : String
  bucket : String
deriving Repr, DecidableEq

/-- Errors raised by the store client or by `fetch` (the taxonomy of
spec section 7: transport, auth, not-found, everything else). -/
inductive Err where
  | noSuchKey
  | accessDenied
  | network (msg : String)
  | other (msg : String)
deriving Repr, DecidableEq

/-- An error signalled by a gateway operation: either a freshly
constructed generic `new Error(msg)` thrown from a catch block (carrying
only the message), or the original store error propagating uncaught. -/
inductive GatewayErr where
  | generic (msg : String)
  | raw (e : Err)
deriving Repr, DecidableEq

/-- Result of `statObject`: object size and the recorded
`metaData["content-type"]` (`none` when the store has no entry; JS also
allows an empty string to be recorded). -/
structure Stat where
  size : Nat
  metaContentType : Option String
deriving Repr, DecidableEq

/-- An HTTP response as seen through `fetch`: status code and body bytes
(the `arrayBuffer`). -/
structure HttpResp where
  status : Nat
  body : List Nat
deriving Repr, DecidableEq

/-- `IUploadResponse` from minio-client.ts. -/
structure IUploadResponse where
  docId : String
  url : String
deriving Repr, DecidableEq

/-- `IDocumentMetadata` from minio-client.ts. -/
structure IDocumentMetadata where
  contentType : String
  size : Nat
deriving Repr, DecidableEq

/-- Abstract behaviour of the third-party minio client plus `fetch`,
over an abstract external state `σ`.  Every primitive the two gateway
modules call is a field; a call consumes the current state and either
yields a result and a next state or raises an `Err`. -/
structure StoreClient (σ : Type) where
  putObject : σ → String → String → List Nat → Nat → String → Except Err σ
  getObject : σ → String → String → Except Err (List Nat × σ)
  statObject : σ → String → String → Except Err (Stat × σ)
  removeObject : σ → String → String → Except Err σ
  presignedPutObject : σ → String → String → Nat → Except Err (String × σ)
  presignedGetObject : σ → String → String → Nat → Except Err (String × σ)
  fetchPut : σ → String → List Nat → String → Except Err (HttpResp × σ)
  fetchGet : σ → String → Except Err (HttpResp × σ)

/-- JS `a || b` on a possibly-absent string: `undefined` and the empty
string are both falsy, so either one selects the fallback. -/
def jsOrElse (o : Option String) (d : String) : String :=
  match o with
  | none => d
  | some s => if s = "" then d else s

namespace MiniIoClient

/-- `createDocument` of mini-io-client.ts: generate an id (passed in as
`genId`), `putObject` the bytes with the declared content type, return
the id.  No try/catch: a store error propagates as `GatewayErr.raw`. -/
def createDocument {σ : Type} (c : StoreClient σ) (env : Env) (genId : String)
    (file : JSFile) (s : σ) : Except GatewayErr (String × σ) :=
  match c.putObject s env.bucket genId file.content file.content.length file.type with
  | .error e => .error (.raw e)
  | .ok s1 => .ok (genId, s1)

/-- `getDocumentUrl` of mini-io-client.ts: pure string concatenation of
`MINIO_URL`, `MINIO_BUCKET` and the id; no store call, cannot fail. -/
def getDocumentUrl (env : Env) (docId : String) : String :=
  env.minioUrl ++ "/" ++ env.bucket ++ "/" ++ docId

/-- `readDocument` of mini-io-client.ts: `getObject` (stream collected
into one buffer), then `statObject` for the content type, with the JS
`||` fallback to application/octet-stream.  No try/catch. -/
def readDocument {σ : Type} (c : StoreClient σ) (env : Env) (docId : String)
    (s : σ) : Except GatewayErr ((List Nat × String) × σ) :=
  match c.getObject s env.bucket docId with
  | .error e => .error (.raw e)
  | .ok (data, s1) =>
    match c.statObject s1 env.bucket docId with
    | .error e => .error (.raw e)
    | .ok (stat, s2) =>
      .ok ((data, jsOrElse stat.metaContentType "application/octet-stream"), s2)

/-- `deleteDocument` of mini-io-client.ts: unconditional `removeObject`.
No try/catch. -/
def deleteDocument {σ : Type} (c : StoreClient σ) (env : Env) (docId : String)
    (s : σ) : Except GatewayErr σ :=
  match c.removeObject s env.bucket docId with
  | .error e => .error (.raw e)
  | .ok s1 => .ok s1

end MiniIoClient

namespace MinioClient

/-- `createDocument` of minio-client.ts: presign a PUT URL for the fresh
id (default expiry 3600, modelled by an optional argument), `fetch` the
file to that URL (the response object is ignored), and return the id
together with the constructed URL `MINIO_URL/bucket/id`.  Any error in
the try block is caught and re-signalled as the generic error. -/
def createDocument {σ : Type} (c : StoreClient σ) (env : Env) (genId : String)
    (file : JSFile) (expiryOpt : Option Nat) (s : σ) :
    Except GatewayErr (IUploadResponse × σ) :=
  match c.presignedPutObject s env.bucket genId (expiryOpt.getD 3600) with
  | .error _ => .error (.generic "Failed to create document")
  | .ok (url, s1) =>
    match c.fetchPut s1 url file.content file.type with
    | .error _ => .error (.generic "Failed to create document")
    | .ok (_resp, s2) =>
      .ok ({ docId := genId,
             url := env.minioUrl ++ "/" ++ env.bucket ++ "/" ++ genId }, s2)

/-- `getDocumentUrl` of minio-client.ts: presign a GET URL with the given
expiry (default 3600) and return it; errors are caught and re-signalled
generically. -/
def getDocumentUrl {σ : Type} (c : StoreClient σ) (env : Env) (docId : String)
    (expiryOpt : Option Nat) (s : σ) : Except GatewayErr (String × σ) :=
  match c.presignedGetObject s env.bucket docId (expiryOpt.getD 3600) with
  | .error _ => .error (.generic "Failed to get document URL")
  | .ok (url, s1) => .ok (url, s1)

/-- `readDocument` of minio-client.ts: `statObject`, presign a GET URL
with hardcoded expiry 60, `fetch` it and return the body bytes with the
content type from the stat (JS `||` fallback).  Errors are caught and
re-signalled generically. -/
def readDocument {σ : Type} (c : StoreClient σ) (env : Env) (docId : String)
    (s : σ) : Except GatewayErr ((List Nat × String) × σ) :=
  match c.statObject s env.bucket docId with
  | .error _ => .error (.generic "Failed to read document")
  | .ok (stat, s1) =>
    match c.presignedGetObject s1 env.bucket docId 60 with
    | .error _ => .error (.generic "Failed to read document")
    | .ok (url, s2) =>
      match c.fetchGet s2 url with
      | .error _ => .error (.generic "Failed to read document")
      | .ok (resp, s3) =>
        .ok ((resp.body, jsOrElse stat.metaContentType "application/octet-stream"), s3)

/-- `deleteDocument` of minio-client.ts: `removeObject`, errors caught
and re-signalled generically. -/
def deleteDocument {σ : Type} (c : StoreClient σ) (env : Env) (docId : String)
    (s : σ) : Except GatewayErr σ :=
  match c.removeObject s env.bucket docId with
  | .error _ => .error (.generic "Failed to delete document")
  | .ok s1 => .ok s1

/-- `getDocumentMetadata` of minio-client.ts: `statObject`, returning
content type (with the JS `||` fallback) and size; errors caught and
re-signalled generically. -/
def getDocumentMetadata {σ : Type} (c : StoreClient σ) (env : Env) (docId : String)
    (s : σ) : Except GatewayErr (IDocumentMetadata × σ) :=
  match c.statObject s env.bucket docId with
  | .error _ => .error (.generic "Failed to get document metadata")
  | .ok (stat, s1) =>
    .ok ({ contentType := jsOrElse stat.metaContentType "application/octet-stream",
           size := stat.size }, s1)

/-- `documentExists` of minio-client.ts: `statObject` in a try block,
`true` on success, `false` on any failure; never signals an error (the
return type is a plain `Bool`). -/
def documentExists {σ : Type} (c : StoreClient σ) (env : Env) (docId : String)
    (s : σ) : Bool × σ :=
  match c.statObject s env.bucket docId with
  | .error _ => (false, s)
  | .ok (_, s1) => (true, s1)

end MinioClient

/-! ## A faithful key-value model of the external store -/

/-- An object held by the faithful store model: content bytes and the
recorded content-type metadata. -/
structure StoredObject where
  content : List Nat
  contentTypeMeta : Option String
deriving Repr, DecidableEq

/-- Whether a presigned URL authorises an upload or a download. -/
inductive UrlKind where
  | put
  | get
deriving Repr, DecidableEq

/-- What a presigned URL issued by the faithful store points at. -/
structure UrlTarget where
  kind : UrlKind
  bucket : String
  key : String
  expiry : Nat
deriving Repr, DecidableEq

/-- State of the faithful store model: a key-value map of objects (most
recent binding first), the table of issued presigned URLs, and a counter
making successive URLs distinct. -/
structure FStore where
  objects : List (String × StoredObject)
  urls : List (String × UrlTarget)
  counter : Nat
deriving Repr, DecidableEq

/-- The distinct URL string the faithful store issues for its n-th
signing request. -/
def signUrl (n : Nat) : String :=
  "https://sign.example/" ++ toString n

/-- The faithful store behaviour: `putObject` stores exactly the given
bytes and content type, `getObject` and `statObject` read them back
(`noSuchKey` on absent keys), `removeObject` deletes silently even when
the key is absent (S3 semantics), and presigned URLs resolve through the
URL table to their target keys. -/
def faithful : StoreClient FStore where
  putObject := fun s _b k body _n ct =>
    .ok { s with objects := (k, ⟨body, some ct⟩) :: s.objects }
  getObject := fun s _b k =>
    match s.objects.lookup k with
    | some o => .ok (o.content, s)
    | none => .error .noSuchKey
  statObject := fun s _b k =>
    match s.objects.lookup k with
    | some o => .ok (⟨o.content.length, o.contentTypeMeta⟩, s)
    | none => .error .noSuchKey
  removeObject := fun s _b k =>
    .ok { s with objects := s.objects.filter (fun p => p.1 != k) }
  presignedPutObject := fun s b k expiry =>
    .ok (signUrl s.counter,
      { s with urls := (signUrl s.counter, ⟨.put, b, k, expiry⟩) :: s.urls,
               counter := s.counter + 1 })
  presignedGetObject := fun s b k expiry =>
    .ok (signUrl s.counter,
      { s with urls := (signUrl s.counter, ⟨.get, b, k, expiry⟩) :: s.urls,
               counter := s.counter + 1 })
  fetchPut := fun s url body ct =>
    match s.urls.lookup url with
    | some t =>
      match t.kind with
      | .put => .ok (⟨200, []⟩,
          { s with objects := (t.key, ⟨body, some ct⟩) :: s.objects })
      | .get => .ok (⟨403, []⟩, s)
    | none => .error (.network "unresolvable url")
  fetchGet := fun s url =>
    match s.urls.lookup url with
    | some t =>
      match t.kind with
      | .get =>
        match s.objects.lookup t.key with
        | some o => .ok (⟨200, o.content⟩, s)
        | none => .ok (⟨404, []⟩, s)
      | .put => .ok (⟨403, []⟩, s)
    | none => .error (.network "unresolvable url")

/-! ## Concrete behaviours and fixtures used by counterexamples and
witnesses -/

/-- A concrete environment: `MINIO_URL` and `MINIO_BUCKET`. -/
def exEnv : Env :=
  { minioUrl := "https://minio.example", bucket := "docs" }

/-- A concrete file input with a nonempty declared type. -/
def exFile : JSFile :=
  { content := [1, 2, 3], type := "text/plain" }

/-- The empty faithful-store state. -/
def fstore0 : FStore :=
  { objects := [], urls := [], counter := 0 }

/-- A behaviour in which every primitive fails with the same original
error, used to observe what each operation signals on failure. -/
def failClient : StoreClient Unit where
  putObject := fun _ _ _ _ _ _ => .error (.other "boom")
  getObject := fun _ _ _ => .error (.other "boom")
  statObject := fun _ _ _ => .error (.other "boom")
  removeObject := fun _ _ _ => .error (.other "boom")
  presignedPutObject := fun _ _ _ _ => .error (.other "boom")
  presignedGetObject := fun _ _ _ _ => .error (.other "boom")
  fetchPut := fun _ _ _ _ => .error (.other "boom")
  fetchGet := fun _ _ => .error (.other "boom")

/-- A stub behaviour whose signing call returns a fixed presigned URL
and whose `fetch` resolves with status 200; the other primitives fail. -/
def stubClient : StoreClient Unit where
  putObject := fun _ _ _ _ _ _ => .error (.other "unused")
  getObject := fun _ _ _ => .error (.other "unused")
  statObject := fun _ _ _ => .error (.other "unused")
  removeObject := fun _ _ _ => .error (.other "unused")
  presignedPutObject := fun _ _ _ _ => .ok ("https://sign.example/presigned", ())
  presignedGetObject := fun _ _ _ _ => .ok ("https://sign.example/presigned", ())
  fetchPut := fun _ _ _ _ => .ok (⟨200, []⟩, ())
  fetchGet := fun _ _ => .ok (⟨200, []⟩, ())

/-- A stub behaviour whose `fetch` of the presigned PUT URL resolves with
a rejecting HTTP status 403 (for example an expired signed URL). -/
def resp403Client : StoreClient Unit where
  putObject := fun _ _ _ _ _ _ => .error (.other "unused")
  getObject := fun _ _ _ => .error (.other "unused")
  statObject := fun _ _ _ => .error (.other "unused")
  removeObject := fun _ _ _ => .error (.other "unused")
  presignedPutObject := fun _ _ _ _ => .ok ("https://sign.example/presigned", ())
  presignedGetObject := fun _ _ _ _ => .ok ("https://sign.example/presigned", ())
  fetchPut := fun _ _ _ _ => .ok (⟨403, [70, 111]⟩, ())
  fetchGet := fun _ _ => .ok (⟨403, [70, 111]⟩, ())

/-- Instrumentation of a behaviour: the state is paired with the log of
URLs passed to `fetchPut`, so a theorem can talk about which URL a byte
transfer was performed to. -/
def withUrlLog {σ : Type} (c : StoreClient σ) : StoreClient (σ × List String) where
  putObject := fun p b k body n ct =>
    match c.putObject p.1 b k body n ct with
    | .error e => .error e
    | .ok s1 => .ok (s1, p.2)
  getObject := fun p b k =>
    match c.getObject p.1 b k with
    | .error e => .error e
    | .ok (v, s1) => .ok (v, (s1, p.2))
  statObject := fun p b k =>
    match c.statObject p.1 b k with
    | .error e => .error e
    | .ok (v, s1) => .ok (v, (s1, p.2))
  removeObject := fun p b k =>
    match c.removeObject p.1 b k with
    | .error e => .error e
    | .ok s1 => .ok (s1, p.2)
  presignedPutObject := fun p b k expiry =>
    match c.presignedPutObject p.1 b k expiry with
    | .error e => .error e
    | .ok (v, s1) => .ok (v, (s1, p.2))
  presignedGetObject := fun p b k expiry =>
    match c.presignedGetObject p.1 b k expiry with
    | .error e => .error e
    | .ok (v, s1) => .ok (v, (s1, p.2))
  fetchPut := fun p url body ct =>
    match c.fetchPut p.1 url body ct with
    | .error e => .error e
    | .ok (v, s1) => .ok (v, (s1, p.2 ++ [url]))
  fetchGet := fun p url =>
    match c.fetchGet p.1 url with
    | .error e => .error e
    | .ok (v, s1) => .ok (v, (s1, p.2))

/-! ## Computation lemmas for the faithful store model -/

/-- On the faithful store, direct-transfer `createDocument` stores the
bytes and declared type under the generated id and returns the id. -/
theorem faithful_miniIo_createDocument_eq (env : Env) (genId : String)
    (file : JSFile) (fs : FStore) :
    MiniIoClient.createDocument faithful env genId file fs =
      .ok (genId,
        { fs with objects := (genId, ⟨file.content, some file.type⟩) :: fs.objects }) :=
  rfl

/-- On a faithful store whose most recent binding is for `docId`,
direct-transfer `readDocument` returns the stored bytes and the stored
content type (with the JS fallback), leaving the state unchanged. -/
theorem faithful_miniIo_readDocument_eq (env : Env) (docId : String)
    (o : StoredObject) (rest : List (String × StoredObject))
    (urls : List (String × UrlTarget)) (n : Nat) :
    MiniIoClient.readDocument faithful env docId ⟨(docId, o) :: rest, urls, n⟩ =
      .ok ((o.content, jsOrElse o.contentTypeMeta "application/octet-stream"),
           ⟨(docId, o) :: rest, urls, n⟩) := by
  unfold MiniIoClient.readDocument faithful
  simp [List.lookup]

/-- On the faithful store, presigned-variant `createDocument` signs a
fresh PUT URL, transfers the bytes through it (storing them under the
generated id), and returns the id with the constructed URL. -/
theorem faithful_createDocument_eq (env : Env) (genId : String) (file : JSFile)
    (expiryOpt : Option Nat) (fs : FStore) :
    MinioClient.createDocument faithful env genId file expiryOpt fs =
      .ok ({ docId := genId, url := env.minioUrl ++ "/" ++ env.bucket ++ "/" ++ genId },
        { objects := (genId, ⟨file.content, some file.type⟩) :: fs.objects,
          urls := (signUrl fs.counter,
                    ⟨.put, env.bucket, genId, expiryOpt.getD 3600⟩) :: fs.urls,
          counter := fs.counter + 1 }) := by
  unfold MinioClient.createDocument faithful
  simp [List.lookup]

/-- On a faithful store whose most recent binding is for `docId`,
presigned-variant `readDocument` returns the stored bytes and content
type, recording the fresh GET URL it signed (hardcoded expiry 60). -/
theorem faithful_readDocument_eq (env : Env) (docId : String) (o : StoredObject)
    (rest : List (String × StoredObject)) (urls : List (String × UrlTarget)) (n : Nat) :
    MinioClient.readDocument faithful env docId ⟨(docId, o) :: rest, urls, n⟩ =
      .ok ((o.content, jsOrElse o.contentTypeMeta "application/octet-stream"),
        ⟨(docId, o) :: rest, (signUrl n, ⟨.get, env.bucket, docId, 60⟩) :: urls, n + 1⟩) := by
  unfold MinioClient.readDocument faithful
  simp [List.lookup]

/-- On a faithful store whose most recent binding is for `docId`,
`getDocumentMetadata` reports the stored byte length and content type,
leaving the state unchanged. -/
theorem faithful_getDocumentMetadata_eq (env : Env) (docId : String)
    (o : StoredObject) (rest : List (String × StoredObject))
    (urls : List (String × UrlTarget)) (n : Nat) :
    MinioClient.getDocumentMetadata faithful env docId ⟨(docId, o) :: rest, urls, n⟩ =
      .ok ({ contentType := jsOrElse o.contentTypeMeta "application/octet-stream",
             size := o.content.length }, ⟨(docId, o) :: rest, urls, n⟩) := by
  unfold MinioClient.getDocumentMetadata faithful
  simp [List.lookup]

/-! ## Claims -/

/-- Claim C4: `documentExists(docId)` returns true exactly when the
metadata lookup (`statObject`) on `docId` succeeds, and returns false
whenever the lookup fails for any reason whatsoever; it can never signal
an error, since its return type is a plain `Bool`. -/
theorem documentExists_iff_stat_ok {σ : Type} (c : StoreClient σ) (env : Env)
    (docId : String) (s : σ) :
    ((MinioClient.documentExists c env docId s).1 = true ↔
      ∃ r, c.statObject s env.bucket docId = .ok r) ∧
    ∀ e, c.statObject s env.bucket docId = .error e →
      (MinioClient.documentExists c env docId s).1 = false := by
  unfold MinioClient.documentExists
  constructor
  · cases h : c.statObject s env.bucket docId with
    | error e => simp [h]
    | ok r => simp [h]
  · intro e he
    simp [he]

/-- Witness for C4: on a behaviour whose metadata lookup fails,
`documentExists` evaluates to false. -/
theorem documentExists_iff_stat_ok_witness :
    (MinioClient.documentExists failClient exEnv "d" ()).1 = false :=
  (documentExists_iff_stat_ok failClient exEnv "d" ()).2 (.other "boom") rfl

/-- Claim C6: in the presigned-URL variant, `getDocumentUrl` defaults the
expiry to 3600 seconds (omitting the argument behaves as passing 3600),
passes the expiry argument through unmodified to `presignedGetObject`,
and returns the signed URL that call produces. -/
theorem getDocumentUrl_default_and_passthrough {σ : Type} (c : StoreClient σ)
    (env : Env) (docId : String) (s : σ) :
    MinioClient.getDocumentUrl c env docId none s =
      MinioClient.getDocumentUrl c env docId (some 3600) s ∧
    ∀ expirySeconds u s1,
      c.presignedGetObject s env.bucket docId expirySeconds = .ok (u, s1) →
      MinioClient.getDocumentUrl c env docId (some expirySeconds) s = .ok (u, s1) := by
  refine ⟨rfl, ?_⟩
  intro expirySeconds u s1 h
  unfold MinioClient.getDocumentUrl
  simp [h]

/-- Witness for C6: on a stub behaviour, an expiry of 60 is passed
through and the signed URL is returned. -/
theorem getDocumentUrl_default_and_passthrough_witness :
    MinioClient.getDocumentUrl stubClient exEnv "d" (some 60) () =
      .ok ("https://sign.example/presigned", ()) :=
  (getDocumentUrl_default_and_passthrough stubClient exEnv "d" ()).2 60
    "https://sign.example/presigned" () rfl

/-- Claim C7: in the direct-transfer variant, `getDocumentUrl` returns
the concatenation of the store endpoint URL, the bucket and the id
separated by slashes; it takes no store behaviour at all and cannot fail
(its type is a plain `String`).  Moreover in the presigned-URL variant
`getDocumentUrl` depends only on the signing call: two behaviours that
agree on `presignedGetObject` give identical results, so no existence
check is consulted in either variant. -/
theorem getDocumentUrl_pure_concat (env : Env) (docId : String) :
    MiniIoClient.getDocumentUrl env docId =
      env.minioUrl ++ "/" ++ env.bucket ++ "/" ++ docId ∧
    ∀ (σ : Type) (c c' : StoreClient σ) (expiryOpt : Option Nat) (s : σ),
      (∀ t b k expiry,
        c.presignedGetObject t b k expiry = c'.presignedGetObject t b k expiry) →
      MinioClient.getDocumentUrl c env docId expiryOpt s =
        MinioClient.getDocumentUrl c' env docId expiryOpt s := by
  refine ⟨rfl, ?_⟩
  intro σ c c' expiryOpt s h
  unfold MinioClient.getDocumentUrl
  simp only [h]

/-- Witness for C7: the hypothesis of the independence conjunct holds
for a behaviour compared with itself. -/
theorem getDocumentUrl_pure_concat_witness :
    MinioClient.getDocumentUrl stubClient exEnv "d" none () =
      MinioClient.getDocumentUrl stubClient exEnv "d" none () :=
  (getDocumentUrl_pure_concat exEnv "d").2 Unit stubClient stubClient none ()
    (fun _ _ _ _ => rfl)

/-- Claim C10: in the presigned-URL variant, `createDocument` never
inspects the HTTP response of the PUT transfer: whenever the signing
call succeeds and the `fetch` resolves — even with a rejecting status of
400 or above, such as 403 for an expired signed URL — the operation
returns the success value `{docId, url}`. -/
theorem createDocument_ignores_put_status {σ : Type} (c : StoreClient σ) (env : Env)
    (genId : String) (file : JSFile) (expiryOpt : Option Nat) (s : σ)
    (u : String) (s1 : σ) (resp : HttpResp) (s2 : σ)
    (hsign : c.presignedPutObject s env.bucket genId (expiryOpt.getD 3600) = .ok (u, s1))
    (hfetch : c.fetchPut s1 u file.content file.type = .ok (resp, s2))
    (_hstatus : 400 ≤ resp.status) :
    MinioClient.createDocument c env genId file expiryOpt s =
      .ok ({ docId := genId,
             url := env.minioUrl ++ "/" ++ env.bucket ++ "/" ++ genId }, s2) := by
  unfold MinioClient.createDocument
  simp [hsign, hfetch]

/-- Witness for C10: with a behaviour whose PUT transfer resolves with
status 403, `createDocument` still succeeds. -/
theorem createDocument_ignores_put_status_witness :
    MinioClient.createDocument resp403Client exEnv "d1" exFile none () =
      .ok ({ docId := "d1",
             url := exEnv.minioUrl ++ "/" ++ exEnv.bucket ++ "/" ++ "d1" }, ()) :=
  createDocument_ignores_put_status resp403Client exEnv "d1" exFile none ()
    "https://sign.example/presigned" () ⟨403, [70, 111]⟩ () rfl rfl (by decide)

/-- Claim C2: over the faithful key-value store model, for every file
with a declared (nonempty) content type, `createDocument` succeeds in
both variants and a subsequent `readDocument` on the returned id returns
the bytes of the file unchanged and the declared content type. -/
theorem create_then_read_roundtrip (env : Env) (file : JSFile) (genId : String)
    (fs : FStore) (h : file.type ≠ "") :
    (∃ s1, MiniIoClient.createDocument faithful env genId file fs = .ok (genId, s1) ∧
       Except.map (fun p => p.1) (MiniIoClient.readDocument faithful env genId s1) =
         .ok (file.content, file.type)) ∧
    ∀ expiryOpt : Option Nat, ∃ (r : IUploadResponse) (s1 : FStore),
      MinioClient.createDocument faithful env genId file expiryOpt fs = .ok (r, s1) ∧
      r.docId = genId ∧
      Except.map (fun p => p.1) (MinioClient.readDocument faithful env r.docId s1) =
        .ok (file.content, file.type) := by
  constructor
  · refine ⟨_, faithful_miniIo_createDocument_eq env genId file fs, ?_⟩
    rw [faithful_miniIo_readDocument_eq]
    simp [jsOrElse, h, Except.map]
  · intro expiryOpt
    refine ⟨_, _, faithful_createDocument_eq env genId file expiryOpt fs, rfl, ?_⟩
    rw [show ({ docId := genId,
                url := env.minioUrl ++ "/" ++ env.bucket ++ "/" ++ genId } :
              IUploadResponse).docId = genId from rfl]
    rw [faithful_readDocument_eq]
    simp [jsOrElse, h, Except.map]

/-- Witness for C2: the round trip evaluated on a concrete file with
declared type text/plain, starting from the empty store. -/
theorem create_then_read_roundtrip_witness :
    exFile.type ≠ "" ∧
    ((∃ s1, MiniIoClient.createDocument faithful exEnv "d1" exFile fstore0 = .ok ("d1", s1) ∧
        Except.map (fun p => p.1) (MiniIoClient.readDocument faithful exEnv "d1" s1) =
          .ok (exFile.content, exFile.type)) ∧
     ∀ expiryOpt : Option Nat, ∃ (r : IUploadResponse) (s1 : FStore),
       MinioClient.createDocument faithful exEnv "d1" exFile expiryOpt fstore0 = .ok (r, s1) ∧
       r.docId = "d1" ∧
       Except.map (fun p => p.1) (MinioClient.readDocument faithful exEnv r.docId s1) =
         .ok (exFile.content, exFile.type)) :=
  ⟨by decide, create_then_read_roundtrip exEnv exFile "d1" fstore0 (by decide)⟩

/-- Claim C5: in both variants the returned document id is exactly the
identifier drawn from the generator, independently of the file content;
hence two calls whose generator outputs are distinct return distinct
ids even for identical file content. -/
theorem createDocument_id_fresh (env : Env) :
    (∀ (σ : Type) (c : StoreClient σ) (f1 f2 : JSFile) (id1 id2 : String)
       (s1 s2 : σ) (d1 d2 : String) (t1 t2 : σ),
       MiniIoClient.createDocument c env id1 f1 s1 = .ok (d1, t1) →
       MiniIoClient.createDocument c env id2 f2 s2 = .ok (d2, t2) →
       d1 = id1 ∧ d2 = id2 ∧ (id1 ≠ id2 → d1 ≠ d2)) ∧
    ∀ (σ : Type) (c : StoreClient σ) (f1 f2 : JSFile) (id1 id2 : String)
      (e1 e2 : Option Nat) (s1 s2 : σ) (r1 r2 : IUploadResponse) (t1 t2 : σ),
      MinioClient.createDocument c env id1 f1 e1 s1 = .ok (r1, t1) →
      MinioClient.createDocument c env id2 f2 e2 s2 = .ok (r2, t2) →
      r1.docId = id1 ∧ r2.docId = id2 ∧ (id1 ≠ id2 → r1.docId ≠ r2.docId) := by
  constructor
  · intro σ c f1 f2 id1 id2 s1 s2 d1 d2 t1 t2 h1 h2
    unfold MiniIoClient.createDocument at h1 h2
    split at h1
    · cases h1
    · split at h2
      · cases h2
      · cases h1
        cases h2
        exact ⟨rfl, rfl, fun hne => hne⟩
  · intro σ c f1 f2 id1 id2 e1 e2 s1 s2 r1 r2 t1 t2 h1 h2
    unfold MinioClient.createDocument at h1 h2
    split at h1
    · cases h1
    · split at h1
      · cases h1
      · split at h2
        · cases h2
        · split at h2
          · cases h2
          · cases h1
            cases h2
            exact ⟨rfl, rfl, fun hne => hne⟩

/-- Witness for C5: two concrete calls with identical content and
distinct generator outputs yield distinct ids. -/
theorem createDocument_id_fresh_witness :
    ({ docId := "a", url := exEnv.minioUrl ++ "/" ++ exEnv.bucket ++ "/" ++ "a" } :
      IUploadResponse).docId ≠
    ({ docId := "b", url := exEnv.minioUrl ++ "/" ++ exEnv.bucket ++ "/" ++ "b" } :
      IUploadResponse).docId :=
  ((createDocument_id_fresh exEnv).2 Unit stubClient exFile exFile "a" "b" none none () ()
    { docId := "a", url := exEnv.minioUrl ++ "/" ++ exEnv.bucket ++ "/" ++ "a" }
    { docId := "b", url := exEnv.minioUrl ++ "/" ++ exEnv.bucket ++ "/" ++ "b" }
    () () rfl rfl).2.2 (by decide)

/-- Claim C9: `getDocumentMetadata` passes the size through unmodified
from the stat record; over the faithful store, after a successful
`createDocument` the reported size is the exact byte length of the
uploaded content. -/
theorem getDocumentMetadata_size_exact (env : Env) :
    (∀ (σ : Type) (c : StoreClient σ) (docId : String) (s : σ) (stat : Stat) (s1 : σ),
       c.statObject s env.bucket docId = .ok (stat, s1) →
       MinioClient.getDocumentMetadata c env docId s =
         .ok ({ contentType := jsOrElse stat.metaContentType "application/octet-stream",
                size := stat.size }, s1)) ∧
    ∀ (fs : FStore) (file : JSFile) (genId : String) (expiryOpt : Option Nat)
      (r : IUploadResponse) (s1 : FStore),
      MinioClient.createDocument faithful env genId file expiryOpt fs = .ok (r, s1) →
      Except.map (fun p => p.1.size)
        (MinioClient.getDocumentMetadata faithful env r.docId s1) =
        .ok file.content.length := by
  constructor
  · intro σ c docId s stat s1 hstat
    unfold MinioClient.getDocumentMetadata
    simp [hstat]
  · intro fs file genId expiryOpt r s1 h
    rw [faithful_createDocument_eq] at h
    simp only [Except.ok.injEq, Prod.mk.injEq] at h
    obtain ⟨h1, h2⟩ := h
    subst h1
    subst h2
    rw [show ({ docId := genId,
                url := env.minioUrl ++ "/" ++ env.bucket ++ "/" ++ genId } :
              IUploadResponse).docId = genId from rfl]
    rw [faithful_getDocumentMetadata_eq]
    simp [Except.map]

/-- Witness for C9: the size pass-through evaluated on the faithful
store after a concrete upload of three bytes. -/
theorem getDocumentMetadata_size_exact_witness :
    Except.map (fun p => p.1.size)
      (MinioClient.getDocumentMetadata faithful exEnv
        ({ docId := "d1",
           url := exEnv.minioUrl ++ "/" ++ exEnv.bucket ++ "/" ++ "d1" } :
          IUploadResponse).docId
        { objects := [("d1", ⟨exFile.content, some exFile.type⟩)],
          urls := [(signUrl fstore0.counter, ⟨.put, exEnv.bucket, "d1", 3600⟩)],
          counter := fstore0.counter + 1 }) = .ok exFile.content.length :=
  (getDocumentMetadata_size_exact exEnv).2 fstore0 exFile "d1" none
    { docId := "d1", url := exEnv.minioUrl ++ "/" ++ exEnv.bucket ++ "/" ++ "d1" }
    { objects := [("d1", ⟨exFile.content, some exFile.type⟩)],
      urls := [(signUrl fstore0.counter, ⟨.put, exEnv.bucket, "d1", 3600⟩)],
      counter := fstore0.counter + 1 }
    (faithful_createDocument_eq exEnv "d1" exFile none fstore0)

/-- Counterexample to C1 as stated: the direct-transfer variant has no
catch block, so when the store client fails during `createDocument` the
original error surfaces raw instead of the generic per-operation
error. -/
theorem miniIo_createDocument_propagates_raw :
    MiniIoClient.createDocument failClient exEnv "d1" exFile () =
      .error (.raw (.other "boom")) ∧
    GatewayErr.raw (.other "boom") ≠ .generic "Failed to create document" :=
  ⟨rfl, by decide⟩

/-- Claim C1 amended: every operation of the presigned-URL variant
collapses any failure into its generic per-operation error (which by
construction carries only the message, not the original error), while
the direct-transfer variant propagates the original error unwrapped;
on the faithful store, a docId never created makes the presigned
`readDocument` fail with its generic error, the direct `readDocument`
fail with the raw not-found error, and `deleteDocument` succeed
silently. -/
theorem generic_error_collapse (env : Env) :
    (∀ (σ : Type) (c : StoreClient σ) (genId : String) (file : JSFile)
       (expiryOpt : Option Nat) (s : σ) (e : GatewayErr),
       MinioClient.createDocument c env genId file expiryOpt s = .error e →
       e = .generic "Failed to create document") ∧
    (∀ (σ : Type) (c : StoreClient σ) (docId : String) (expiryOpt : Option Nat)
       (s : σ) (e : GatewayErr),
       MinioClient.getDocumentUrl c env docId expiryOpt s = .error e →
       e = .generic "Failed to get document URL") ∧
    (∀ (σ : Type) (c : StoreClient σ) (docId : String) (s : σ) (e : GatewayErr),
       MinioClient.readDocument c env docId s = .error e →
       e = .generic "Failed to read document") ∧
    (∀ (σ : Type) (c : StoreClient σ) (docId : String) (s : σ) (e : GatewayErr),
       MinioClient.deleteDocument c env docId s = .error e →
       e = .generic "Failed to delete document") ∧
    (∀ (σ : Type) (c : StoreClient σ) (docId : String) (s : σ) (e : GatewayErr),
       MinioClient.getDocumentMetadata c env docId s = .error e →
       e = .generic "Failed to get document metadata") ∧
    (∀ (σ : Type) (c : StoreClient σ) (genId : String) (file : JSFile) (s : σ)
       (e : GatewayErr),
       MiniIoClient.createDocument c env genId file s = .error e → ∃ e0, e = .raw e0) ∧
    (∀ (σ : Type) (c : StoreClient σ) (docId : String) (s : σ) (e : GatewayErr),
       MiniIoClient.readDocument c env docId s = .error e → ∃ e0, e = .raw e0) ∧
    (∀ (σ : Type) (c : StoreClient σ) (docId : String) (s : σ) (e : GatewayErr),
       MiniIoClient.deleteDocument c env docId s = .error e → ∃ e0, e = .raw e0) ∧
    ∀ (fs : FStore) (docId : String), fs.objects.lookup docId = none →
      MinioClient.readDocument faithful env docId fs =
        .error (.generic "Failed to read document") ∧
      MiniIoClient.readDocument faithful env docId fs = .error (.raw .noSuchKey) ∧
      ∃ fs1, MinioClient.deleteDocument faithful env docId fs = .ok fs1 := by
  refine ⟨?_, ?_, ?_, ?_, ?_, ?_, ?_, ?_, ?_⟩
  · intro σ c genId file expiryOpt s e h
    unfold MinioClient.createDocument at h
    split at h
    · exact (Except.error.inj h).symm
    · split at h
      · exact (Except.error.inj h).symm
      · cases h
  · intro σ c docId expiryOpt s e h
    unfold MinioClient.getDocumentUrl at h
    split at h
    · exact (Except.error.inj h).symm
    · cases h
  · intro σ c docId s e h
    unfold MinioClient.readDocument at h
    split at h
    · exact (Except.error.inj h).symm
    · split at h
      · exact (Except.error.inj h).symm
      · split at h
        · exact (Except.error.inj h).symm
        · cases h
  · intro σ c docId s e h
    unfold MinioClient.deleteDocument at h
    split at h
    · exact (Except.error.inj h).symm
    · cases h
  · intro σ c docId s e h
    unfold MinioClient.getDocumentMetadata at h
    split at h
    · exact (Except.error.inj h).symm
    · cases h
  · intro σ c genId file s e h
    unfold MiniIoClient.createDocument at h
    split at h
    · exact ⟨_, (Except.error.inj h).symm⟩
    · cases h
  · intro σ c docId s e h
    unfold MiniIoClient.readDocument at h
    split at h
    · exact ⟨_, (Except.error.inj h).symm⟩
    · split at h
      · exact ⟨_, (Except.error.inj h).symm⟩
      · cases h
  · intro σ c docId s e h
    unfold MiniIoClient.deleteDocument at h
    split at h
    · exact ⟨_, (Except.error.inj h).symm⟩
    · cases h
  · intro fs docId hnone
    refine ⟨?_, ?_, ⟨_, rfl⟩⟩
    · unfold MinioClient.readDocument faithful
      simp [hnone]
    · unfold MiniIoClient.readDocument faithful
      simp [hnone]

/-- Witness for the amended C1: the collapse evaluated on a failing
behaviour and on the faithful store at a never-created id. -/
theorem generic_error_collapse_witness :
    GatewayErr.generic "Failed to create document" = .generic "Failed to create document" ∧
    (MinioClient.readDocument faithful exEnv "missing" fstore0 =
        .error (.generic "Failed to read document") ∧
      MiniIoClient.readDocument faithful exEnv "missing" fstore0 =
        .error (.raw .noSuchKey) ∧
      ∃ fs1, MinioClient.deleteDocument faithful exEnv "missing" fstore0 = .ok fs1) :=
  ⟨(generic_error_collapse exEnv).1 Unit failClient "d1" exFile none ()
      (.generic "Failed to create document") rfl,
   (generic_error_collapse exEnv).2.2.2.2.2.2.2.2 fstore0 "missing" rfl⟩

/-- Counterexample to C3 as stated: on a behaviour whose signing call
returns a fixed presigned URL, the URL-logging instrumentation shows the
byte transfer went to the presigned URL, while the url field of the
returned descriptor is the constructed URL, a different string. -/
theorem createDocument_url_not_transfer_url :
    MinioClient.createDocument (withUrlLog stubClient) exEnv "d1" exFile none ((), []) =
      .ok ({ docId := "d1", url := exEnv.minioUrl ++ "/" ++ exEnv.bucket ++ "/" ++ "d1" },
           ((), ["https://sign.example/presigned"])) ∧
    exEnv.minioUrl ++ "/" ++ exEnv.bucket ++ "/" ++ "d1" ≠
      "https://sign.example/presigned" :=
  ⟨rfl, by decide⟩

/-- Claim C3 amended: `createDocument` signs a short-lived upload URL
for the fresh identifier, performs the byte transfer to that signed URL
(the URL log contains exactly the signed URL), and returns the
identifier together with the constructed URL `MINIO_URL/bucket/docId`,
not the transfer URL. -/
theorem createDocument_returns_constructed_url {σ : Type} (c : StoreClient σ)
    (env : Env) (genId : String) (file : JSFile) (expiryOpt : Option Nat) (s : σ)
    (r : IUploadResponse) (s1 : σ) (log : List String)
    (h : MinioClient.createDocument (withUrlLog c) env genId file expiryOpt (s, []) =
      .ok (r, (s1, log))) :
    r.docId = genId ∧
    r.url = env.minioUrl ++ "/" ++ env.bucket ++ "/" ++ genId ∧
    ∃ u t1, c.presignedPutObject s env.bucket genId (expiryOpt.getD 3600) = .ok (u, t1) ∧
      log = [u] := by
  unfold MinioClient.createDocument at h
  cases hp : c.presignedPutObject s env.bucket genId (expiryOpt.getD 3600) with
  | error e => simp [withUrlLog, hp] at h
  | ok p =>
    obtain ⟨u, t1⟩ := p
    cases hf : c.fetchPut t1 u file.content file.type with
    | error e2 => simp [withUrlLog, hp, hf] at h
    | ok q =>
      obtain ⟨resp, t2⟩ := q
      simp only [withUrlLog, hp, hf, List.nil_append] at h
      injection h with h'
      injection h' with hA hB
      injection hB with hB1 hB2
      subst hA
      subst hB2
      exact ⟨rfl, rfl, u, t1, rfl, rfl⟩

/-- Witness for the amended C3: evaluated on the stub behaviour with a
fixed presigned URL. -/
theorem createDocument_returns_constructed_url_witness :
    ({ docId := "d1", url := exEnv.minioUrl ++ "/" ++ exEnv.bucket ++ "/" ++ "d1" } :
      IUploadResponse).docId = "d1" ∧
    ({ docId := "d1", url := exEnv.minioUrl ++ "/" ++ exEnv.bucket ++ "/" ++ "d1" } :
      IUploadResponse).url = exEnv.minioUrl ++ "/" ++ exEnv.bucket ++ "/" ++ "d1" ∧
    ∃ u t1, stubClient.presignedPutObject () exEnv.bucket "d1"
        ((none : Option Nat).getD 3600) = .ok (u, t1) ∧
      ["https://sign.example/presigned"] = [u] :=
  createDocument_returns_constructed_url stubClient exEnv "d1" exFile none ()
    { docId := "d1", url := exEnv.minioUrl ++ "/" ++ exEnv.bucket ++ "/" ++ "d1" }
    () ["https://sign.example/presigned"] rfl

/-- A faithful-store state in which the store has the empty string
recorded as the content type of document d. -/
def exStoreEmptyCt : FStore :=
  { objects := [("d", ⟨[7], some ""⟩)], urls := [], counter := 0 }

/-- A faithful-store state in which document d has content type
text/plain recorded. -/
def exStorePlain : FStore :=
  { objects := [("d", ⟨[7], some "text/plain"⟩)], urls := [], counter := 0 }

/-- Counterexample to C8 as stated: when the store has the empty string
recorded as the content type (a recorded value, JS-falsy), the JS `||`
fallback fires and `readDocument` returns application/octet-stream
instead of the recorded value. -/
theorem readDocument_empty_contentType_fallback :
    MinioClient.readDocument faithful exEnv "d" exStoreEmptyCt =
      .ok (([7], "application/octet-stream"),
        { objects := [("d", ⟨[7], some ""⟩)],
          urls := [(signUrl 0, ⟨.get, exEnv.bucket, "d", 60⟩)], counter := 1 }) ∧
    (exStoreEmptyCt.objects.lookup "d").map StoredObject.contentTypeMeta =
      some (some "") ∧
    ("application/octet-stream" : String) ≠ "" :=
  ⟨rfl, rfl, by decide⟩

/-- Claim C8 amended: in both variants the contentType returned by
`readDocument` is the JS `||` of the recorded metadata value and
application/octet-stream: it equals the recorded content type when a
nonempty one is recorded, and the generic binary type when the store
has none recorded or records the empty string. -/
theorem readDocument_contentType_fallback (env : Env) :
    (∀ o : Option String, o = none ∨ o = some "" →
       jsOrElse o "application/octet-stream" = "application/octet-stream") ∧
    (∀ t : String, t ≠ "" → jsOrElse (some t) "application/octet-stream" = t) ∧
    (∀ (σ : Type) (c : StoreClient σ) (docId : String) (s : σ) (stat : Stat) (s1 : σ),
       c.statObject s env.bucket docId = .ok (stat, s1) →
       ∀ data ct s2, MinioClient.readDocument c env docId s = .ok ((data, ct), s2) →
         ct = jsOrElse stat.metaContentType "application/octet-stream") ∧
    ∀ (σ : Type) (c : StoreClient σ) (docId : String) (s : σ) (d0 : List Nat)
      (s1 : σ) (stat : Stat) (s2 : σ),
      c.getObject s env.bucket docId = .ok (d0, s1) →
      c.statObject s1 env.bucket docId = .ok (stat, s2) →
      MiniIoClient.readDocument c env docId s =
        .ok ((d0, jsOrElse stat.metaContentType "application/octet-stream"), s2) := by
  refine ⟨?_, ?_, ?_, ?_⟩
  · intro o ho
    rcases ho with rfl | rfl <;> simp [jsOrElse]
  · intro t ht
    simp [jsOrElse, ht]
  · intro σ c docId s stat s1 hstat data ct s2 h
    unfold MinioClient.readDocument at h
    simp only [hstat] at h
    split at h
    · cases h
    · split at h
      · cases h
      · injection h with h'
        injection h' with hA hB
        injection hA with h1 h2
        exact h2.symm
  · intro σ c docId s d0 s1 stat s2 hget hstat
    unfold MiniIoClient.readDocument
    simp [hget, hstat]

/-- Witness for the amended C8: the fallback and pass-through evaluated
at concrete metadata values and on the faithful store. -/
theorem readDocument_contentType_fallback_witness :
    jsOrElse (some "") "application/octet-stream" = "application/octet-stream" ∧
    jsOrElse (some "text/plain") "application/octet-stream" = "text/plain" ∧
    MiniIoClient.readDocument faithful exEnv "d" exStorePlain =
      .ok (([7], jsOrElse (some "text/plain") "application/octet-stream"), exStorePlain) :=
  ⟨(readDocument_contentType_fallback exEnv).1 (some "") (Or.inr rfl),
   (readDocument_contentType_fallback exEnv).2.1 "text/plain" (by decide),
   (readDocument_contentType_fallback exEnv).2.2.2 FStore faithful "d" exStorePlain
     [7] exStorePlain ⟨1, some "text/plain"⟩ exStorePlain rfl rfl⟩

end LmsStorage
